import Mathlib

/-!
# Verification of the multichain explorer's data-source resolution and aggregation layer

Shallow embedding of the core logic of the repository:

* `src/utils/chainDetector.ts` — heuristic chain / query-type detection;
* `src/services/api.ts` — RPC endpoint pool resolution with sticky-success
  caching, the keyed-API → RPC two-tier source selection, response
  normalization (status, unit conversion), large-transaction listing, and
  the analytics aggregator;
* `src/config/rpc` (provided as an unnamed source file) — endpoint pools.

Strings are modelled as `List Char` where character-level reasoning is
needed; JS numbers are modelled as `ℚ`, with `Option ℚ` (`none` = the
non-finite values `NaN`/`Infinity`) where the code can divide by zero.
-/

namespace MB

/-! ## JS string primitives -/

/-- Code points of the whitespace class removed by JS
`String.prototype.trim` (space, tab, line terminators, NBSP and the
other Unicode space marks). -/
def jsWsCodes : List ℕ :=
  [9, 10, 11, 12, 13, 32, 160, 5760, 8192, 8193, 8194, 8195, 8196, 8197,
   8198, 8199, 8200, 8201, 8202, 8232, 8233, 8239, 8287, 12288, 65279]

/-- Whether JS `trim` removes the character. -/
def isJsWs (c : Char) : Bool :=
  decide (c.toNat ∈ jsWsCodes)

/-- JS `query.trim()` on the character list. -/
def jsTrim (l : List Char) : List Char :=
  ((l.dropWhile isJsWs).reverse.dropWhile isJsWs).reverse

/-- `lo ≤ c ≤ hi` as a boolean test on the character's code point
(character ranges in a regex compare code points). -/
def chBetween (lo hi : ℕ) (c : Char) : Bool :=
  decide (lo ≤ c.toNat ∧ c.toNat ≤ hi)

/-- Character class `[0-9]` (code points 48-57). -/
def isDigitCh (c : Char) : Bool := chBetween 48 57 c

/-- Character class `[a-fA-F0-9]` (`a`-`f` is 97-102, `A`-`F` 65-70). -/
def isHexCh (c : Char) : Bool :=
  isDigitCh c || chBetween 97 102 c || chBetween 65 70 c

/-- Character class `[a-z0-9]` (`a`-`z` is 97-122). -/
def isLowerAlnumCh (c : Char) : Bool :=
  isDigitCh c || chBetween 97 122 c

/-- Character class `[a-km-zA-HJ-NP-Z1-9]` (Base58 body of a legacy
Bitcoin address; `a`-`k` 97-107, `m`-`z` 109-122, `A`-`H` 65-72,
`J`-`N` 74-78, `P`-`Z` 80-90, `1`-`9` 49-57). -/
def isBtcBase58Ch (c : Char) : Bool :=
  chBetween 97 107 c || chBetween 109 122 c ||
  chBetween 65 72 c || chBetween 74 78 c ||
  chBetween 80 90 c || chBetween 49 57 c

/-- Character class `[1-9A-HJ-NP-Za-km-z]` (full Base58 alphabet). -/
def isBase58Ch (c : Char) : Bool :=
  chBetween 49 57 c || chBetween 65 72 c || chBetween 74 78 c ||
  chBetween 80 90 c || chBetween 97 107 c || chBetween 109 122 c

/-- Character class `[A-Za-z1-9]` (Tron address body). -/
def isTronCh (c : Char) : Bool :=
  chBetween 65 90 c || chBetween 97 122 c || chBetween 49 57 c

/-- Character class `[a-z0-9_-]` (the permissive NEAR account test;
`_` is 95, `-` is 45). -/
def isNearCh (c : Char) : Bool :=
  isLowerAlnumCh c || c.toNat = 95 || c.toNat = 45

/-! ## Regex tests used by `detectChains` (`src/utils/chainDetector.ts`) -/

/-- `/^[13][a-km-zA-HJ-NP-Z1-9]{25,34}$/` — legacy Bitcoin address. -/
def btcLegacyTest (l : List Char) : Bool :=
  match l with
  | [] => false
  | c :: rest =>
    (c = '1' || c = '3') && decide (25 ≤ rest.length) &&
    decide (rest.length ≤ 34) && rest.all isBtcBase58Ch

/-- `/^bc1[a-z0-9]{39,59}$/` — bech32 Bitcoin address. -/
def bech32Test (l : List Char) : Bool :=
  match l with
  | 'b' :: 'c' :: '1' :: rest =>
    decide (39 ≤ rest.length) && decide (rest.length ≤ 59) &&
    rest.all isLowerAlnumCh
  | _ => false

/-- `q.startsWith('0x')`. -/
def startsWith0x (l : List Char) : Bool :=
  match l with
  | '0' :: 'x' :: _ => true
  | _ => false

/-- `/^[a-fA-F0-9]{64}$/` — bare 64-hex-char string. -/
def hex64Test (l : List Char) : Bool :=
  decide (l.length = 64) && l.all isHexCh

/-- `/^0x[a-fA-F0-9]{40}$/` — EVM address. -/
def evmAddrTest (l : List Char) : Bool :=
  match l with
  | '0' :: 'x' :: rest => decide (rest.length = 40) && rest.all isHexCh
  | _ => false

/-- `/^0x[a-fA-F0-9]{64}$/` — EVM transaction hash. -/
def evmTxTest (l : List Char) : Bool :=
  match l with
  | '0' :: 'x' :: rest => decide (rest.length = 64) && rest.all isHexCh
  | _ => false

/-- `/^[1-9A-HJ-NP-Za-km-z]{32,44}$/` — Solana-style Base58. -/
def solanaBase58Test (l : List Char) : Bool :=
  decide (32 ≤ l.length) && decide (l.length ≤ 44) && l.all isBase58Ch

/-- `/^[13]/`. -/
def startsWith13 (l : List Char) : Bool :=
  match l with
  | '1' :: _ => true
  | '3' :: _ => true
  | _ => false

/-- `q.startsWith('bc1')` (used negated as a guard of the Solana test). -/
def startsWithBc1 (l : List Char) : Bool :=
  match l with
  | 'b' :: 'c' :: '1' :: _ => true
  | _ => false

/-- `/^T[A-Za-z1-9]{33}$/` — Tron address. -/
def tronTest (l : List Char) : Bool :=
  match l with
  | 'T' :: rest => decide (rest.length = 33) && rest.all isTronCh
  | _ => false

/-- `/^cosmos1[a-z0-9]{38}$/` — Cosmos address. -/
def cosmosTest (l : List Char) : Bool :=
  match l with
  | 'c' :: 'o' :: 's' :: 'm' :: 'o' :: 's' :: '1' :: rest =>
    decide (rest.length = 38) && rest.all isLowerAlnumCh
  | _ => false

/-- `q.endsWith('.near')`. -/
def endsWithDotNear (l : List Char) : Bool :=
  match l.reverse with
  | 'r' :: 'a' :: 'e' :: 'n' :: '.' :: _ => true
  | _ => false

/-- `/^[a-z0-9_-]+$/` — the permissive "possible NEAR account" test. -/
def nearAccountTest (l : List Char) : Bool :=
  !l.isEmpty && l.all isNearCh

/-- `/^0x[a-fA-F0-9]{1,64}$/` — Aptos/Sui-style address body. -/
def aptosSuiTest (l : List Char) : Bool :=
  match l with
  | '0' :: 'x' :: rest =>
    decide (1 ≤ rest.length) && decide (rest.length ≤ 64) &&
    rest.all isHexCh
  | _ => false

/-- `/^\d+$/` — pure decimal digits (block number). -/
def digitsTest (l : List Char) : Bool :=
  !l.isEmpty && l.all isDigitCh

/-! ## The chain detector -/

/-- One detector result: `{ chain, confidence, reason }`; the chain is
represented by its id. -/
structure ChainMatch where
  chainId : String
  confidence : ℚ
  reason : String
  deriving Repr, DecidableEq

/-- Modelled from the spec: the static list of supported chains
(`src/types/chain.ts` is not among the provided sources; §6 of the spec
treats it as a configuration input).  The ids are the ones the code
itself dispatches on: the README's chain list (Ethereum, Polygon, BSC,
Avalanche, Arbitrum, Optimism, Bitcoin, Solana) together with the chains
`api.ts` has dedicated branches for and the detector's family filters
exclude by id (tron, cosmos, near, aptos, sui). -/
def SUPPORTED_CHAIN_IDS : List String :=
  ["ethereum", "polygon", "bsc", "avalanche", "arbitrum", "optimism",
   "bitcoin", "solana", "tron", "cosmos", "near", "aptos", "sui"]

/-- `SUPPORTED_CHAINS.find(c => c.id === id)` reduced to the id list:
the pushes guarded by `if (chain)` happen iff the id is configured. -/
def chainConfigured (id : String) : Bool :=
  (SUPPORTED_CHAIN_IDS.find? (fun c => c = id)).isSome

/-- The detector's EVM-family filter:
`SUPPORTED_CHAINS.filter(c => c.id !== 'bitcoin' && ... && c.id !== 'sui')`. -/
def evmFilteredChains : List String :=
  SUPPORTED_CHAIN_IDS.filter (fun c =>
    !(c = "bitcoin") && !(c = "solana") && !(c = "cosmos") &&
    !(c = "near") && !(c = "tron") && !(c = "aptos") && !(c = "sui"))

/-- Insertion step of a stable descending sort by a rational key
(the comparator `(a, b) => b.key - a.key` under ES2019's stable
`Array.prototype.sort`).  The element being inserted comes from earlier
in the original list than everything already inserted, so on a tie it is
placed in front: ties keep their original order. -/
def insertByKeyDesc (key : α → ℚ) (m : α) : List α → List α
  | [] => [m]
  | x :: xs =>
    if key x ≤ key m then m :: x :: xs else x :: insertByKeyDesc key m xs

/-- Stable descending sort by a rational key (model of JS
`arr.sort((a, b) => b.key - a.key)`). -/
def sortByKeyDesc (key : α → ℚ) : List α → List α
  | [] => []
  | x :: xs => insertByKeyDesc key x (sortByKeyDesc key xs)

/-- `detectChains` of `src/utils/chainDetector.ts` on a character list.
Each `if` block of the source contributes its pushes as one sublist, in
source order; the final `sort((a, b) => b.confidence - a.confidence)` is
the stable descending sort. -/
def detectChainsL (q : List Char) : List ChainMatch :=
  let t := jsTrim q
  let ms : List ChainMatch :=
    (if (btcLegacyTest t || bech32Test t) && chainConfigured "bitcoin" then
      [⟨"bitcoin", 95/100, "Bitcoin地址格式"⟩] else []) ++
    (if (hex64Test t && !startsWith0x t) && chainConfigured "bitcoin" then
      [⟨"bitcoin", 90/100, "Bitcoin交易哈希格式"⟩] else []) ++
    (if evmAddrTest t then
      evmFilteredChains.map (fun c => ⟨c, 70/100, "EVM地址格式（可能属于多个链）"⟩)
     else []) ++
    (if evmTxTest t then
      evmFilteredChains.map (fun c => ⟨c, 70/100, "EVM交易哈希格式（可能属于多个链）"⟩)
     else []) ++
    (if (solanaBase58Test t && !startsWith0x t && !startsWith13 t &&
         !startsWithBc1 t) && chainConfigured "solana" then
      [⟨"solana", 80/100, "Solana地址格式"⟩] else []) ++
    (if tronTest t && chainConfigured "tron" then
      [⟨"tron", 95/100, "Tron地址格式"⟩] else []) ++
    (if cosmosTest t && chainConfigured "cosmos" then
      [⟨"cosmos", 95/100, "Cosmos地址格式"⟩] else []) ++
    (if (endsWithDotNear t || nearAccountTest t) &&
        (chainConfigured "near" && decide (t.length < 64)) then
      [⟨"near", 70/100, "可能的NEAR地址"⟩] else []) ++
    (if (aptosSuiTest t && decide (t.length < 66)) && chainConfigured "aptos" then
      [⟨"aptos", 60/100, "可能的Aptos地址"⟩] else []) ++
    (if (aptosSuiTest t && decide (t.length < 66)) && chainConfigured "sui" then
      [⟨"sui", 60/100, "可能的Sui地址"⟩] else []) ++
    (if digitsTest t then
      SUPPORTED_CHAIN_IDS.map (fun c => ⟨c, 30/100, "区块号（需要查询确认）"⟩)
     else [])
  let ms :=
    if ms.isEmpty then
      SUPPORTED_CHAIN_IDS.map (fun c => ⟨c, 10/100, "未知格式，将尝试所有链"⟩)
    else ms
  sortByKeyDesc (fun m => m.confidence) ms

/-- `detectChains` on a Lean `String`. -/
def detectChains (q : String) : List ChainMatch :=
  detectChainsL q.data

/-- The UTXO family among the configured chains (spec §2, §4.4). -/
def utxoFamilyIds : List String := ["bitcoin"]

/-- The account-model family (spec §4.4 lists the account-model chains as
Solana/Aptos/Sui/Tron/Cosmos/NEAR; Tron is named as its own family by the
claim, so it is kept separate here). -/
def accountModelFamilyIds : List String :=
  ["solana", "aptos", "sui", "cosmos", "near"]

/-- The Tron family. -/
def tronFamilyIds : List String := ["tron"]

/-! ## Endpoint pools (`FREE_RPC_ENDPOINTS` / `FREE_API_ENDPOINTS`,
from the RPC configuration source file) -/

/-- The per-chain RPC endpoint pools (`FREE_RPC_ENDPOINTS`), restricted
to the chains this development reasons about; the remaining entries of
the table have the same shape and are not needed by any claim. -/
def freeRpcEndpoints : List (String × List String) :=
  [("ethereum",
    ["https://eth.llamarpc.com",
     "https://rpc.ankr.com/eth",
     "https://ethereum.publicnode.com",
     "https://eth.drpc.org",
     "https://1rpc.io/eth"]),
   ("polygon",
    ["https://polygon-rpc.com",
     "https://rpc.ankr.com/polygon",
     "https://polygon.llamarpc.com",
     "https://polygon.drpc.org",
     "https://1rpc.io/matic"]),
   ("bsc",
    ["https://bsc-dataseed.binance.org",
     "https://bsc-dataseed1.defibit.io",
     "https://rpc.ankr.com/bsc",
     "https://bsc-dataseed1.ninicoin.io",
     "https://1rpc.io/bnb"]),
   ("solana",
    ["https://api.mainnet-beta.solana.com",
     "https://rpc.ankr.com/solana",
     "https://solana.public-rpc.com",
     "https://solana.drpc.org"])]

/-- `FREE_RPC_ENDPOINTS[chainId]` as a total function: a chain id absent
from the record gives `[]`, which the resolver's
`!endpoints || endpoints.length === 0` guard treats the same way as an
empty pool. -/
def poolOf (table : List (String × List String)) (chainId : String) : List String :=
  ((table.find? (fun e => e.1 = chainId)).map (fun e => e.2)).getD []

/-- One `FREE_API_ENDPOINTS` entry: `{ url, requiresKey }`. -/
structure ApiEndpointCfg where
  url : String
  requiresKey : Bool
  deriving Repr, DecidableEq

/-- The keyed-API descriptors (`FREE_API_ENDPOINTS`), restricted to
the chains this development reasons about. -/
def freeApiEndpoints : List (String × ApiEndpointCfg) :=
  [("ethereum", ⟨"https://api.etherscan.io/api", true⟩),
   ("polygon", ⟨"https://api.polygonscan.com/api", true⟩),
   ("bsc", ⟨"https://api.bscscan.com/api", true⟩),
   ("bitcoin", ⟨"https://blockstream.info/api", false⟩),
   ("solana", ⟨"https://api.mainnet-beta.solana.com", false⟩)]

/-- `FREE_API_ENDPOINTS[chainId]` (`undefined` for an absent chain). -/
def apiCfgOf (chainId : String) : Option ApiEndpointCfg :=
  (freeApiEndpoints.find? (fun e => e.1 = chainId)).map (fun e => e.2)

/-! ## RPC endpoint resolution (`getAvailableRpcUrl`, `api.ts` lines 54-77) -/

/-- The in-memory per-chain endpoint index cache (`rpcCache`): an
association list whose first binding for a key wins, so prepending a
binding models `Map.set`. -/
def lookupCache (cache : List (String × ℕ)) (k : String) : Option ℕ :=
  ((cache.find? (fun e => e.1 = k)).map (fun e => e.2))

/-- `rpcCache.set(chainId, index)`. -/
def setCache (cache : List (String × ℕ)) (k : String) (v : ℕ) :
    List (String × ℕ) :=
  (k, v) :: cache

/-- The rotation order of the probing loop: the loop body visits
`(startIndex + i) % endpoints.length` for `i = 0, 1, …, length - 1`. -/
def probeSeq (startIndex len : ℕ) : List ℕ :=
  (List.range len).map (fun k => (startIndex + k) % len)

/-- Result of one endpoint resolution: the returned URL, the index the
probing loop started from, the winning pool index (`none` when every
probe failed), and the cache after the call. -/
structure ResolveOk where
  url : String
  startIndex : ℕ
  winner : Option ℕ
  cache : List (String × ℕ)
  deriving Repr, DecidableEq

/-- The probing loop of `getAvailableRpcUrl`, started at `startIndex`:
try `endpoints[(startIndex + i) % endpoints.length]` for increasing `i`;
on the first successful probe record the winning index in the cache and
return that endpoint; if every probe fails return `endpoints[0]` and
leave the cache unchanged.  `testRpcEndpoint` is abstracted as the
boolean oracle `probe`. -/
def resolveRpcFrom (probe : String → Bool) (endpoints : List String)
    (cache : List (String × ℕ)) (chainId : String) (startIndex : ℕ) :
    ResolveOk :=
  match (probeSeq startIndex endpoints.length).find?
      (fun idx => probe (endpoints.getD idx "")) with
  | some idx =>
    ⟨endpoints.getD idx "", startIndex, some idx, setCache cache chainId idx⟩
  | none => ⟨endpoints.getD 0 "", startIndex, none, cache⟩

/-- `getAvailableRpcUrl(chainId)`: throw for an unconfigured/empty pool,
otherwise run the probing loop starting from the cached index
(`rpcCache.get(chainId) || 0`; the `|| 0` default coincides with
`Option.getD 0` because a cached `0` is itself `0`). -/
def getAvailableRpcUrl (probe : String → Bool) (pools : String → List String)
    (cache : List (String × ℕ)) (chainId : String) : Except String ResolveOk :=
  let endpoints := pools chainId
  if endpoints.isEmpty then
    .error ("No RPC endpoints available for " ++ chainId)
  else
    .ok (resolveRpcFrom probe endpoints cache chainId
      ((lookupCache cache chainId).getD 0))

/-! ## Source selection (the keyed-API → RPC two-tier shape shared by
`getEVMAddressInfo`, `getEVMTransactionInfo`, `getEVMBlockInfo`) -/

/-- JS truthiness of `chain.apiUrl` (absent or empty string is falsy). -/
def jsTruthyStr (o : Option String) : Bool :=
  match o with
  | none => false
  | some s => !s.isEmpty

/-- `apiConfig?.requiresKey` under JS truthiness: `undefined` when the
chain has no `FREE_API_ENDPOINTS` entry, which is falsy. -/
def apiCfgRequiresKey (cfg : Option ApiEndpointCfg) : Bool :=
  match cfg with
  | none => false
  | some c => c.requiresKey

/-- The guard `!chain.apiUrl || !apiConfig?.requiresKey || !apiKey`
opening all three EVM read operations: when it holds the keyed-API tier
is skipped and the RPC path is used directly.  A JS string is falsy
exactly when it is empty. -/
def usesRpcDirect (apiUrl : Option String) (cfg : Option ApiEndpointCfg)
    (apiKey : String) : Bool :=
  !jsTruthyStr apiUrl || !apiCfgRequiresKey cfg || apiKey.isEmpty

/-- A data-source tier of the Source Selection Policy. -/
inductive Tier where
  | api
  | rpc
  deriving Repr, DecidableEq

/-- The tiers an EVM read operation attempts, in order: RPC only when
the opening guard skips the keyed API; otherwise the keyed API and, only
if it failed, the RPC fallback. -/
def evmReadTiers (apiUrl : Option String) (cfg : Option ApiEndpointCfg)
    (apiKey : String) (apiSucceeds : Bool) : List Tier :=
  if usesRpcDirect apiUrl cfg apiKey then [Tier.rpc]
  else if apiSucceeds then [Tier.api] else [Tier.api, Tier.rpc]

/-- The error-propagation skeleton shared by the three EVM read
operations.  `apiResult`/`rpcResult` are the outcomes of the two tiers
(payloads and underlying error messages abstracted as strings).  In the
direct-RPC branch a failure is rethrown as `msgRpc ++ rpcError`; in the
two-tier branch, when the API tier failed and the RPC fallback also
failed, the operation rethrows `msgBoth ++ apiError` — the `catch
(rpcError)` handler interpolates the OUTER `error`, not `rpcError`. -/
def evmTwoTier (msgRpc msgBoth : String) (apiUrl : Option String)
    (cfg : Option ApiEndpointCfg) (apiKey : String)
    (apiResult rpcResult : Except String String) : Except String String :=
  if usesRpcDirect apiUrl cfg apiKey then
    match rpcResult with
    | .ok v => .ok v
    | .error e => .error (msgRpc ++ e)
  else
    match apiResult with
    | .ok v => .ok v
    | .error apiErr =>
      match rpcResult with
      | .ok v => .ok v
      | .error _ => .error (msgBoth ++ apiErr)

/-- `getEVMAddressInfo`'s control/error flow (messages from lines
204 and 286 of `api.ts`). -/
def getEVMAddressInfoFlow (apiUrl : Option String)
    (cfg : Option ApiEndpointCfg) (apiKey : String)
    (apiResult rpcResult : Except String String) : Except String String :=
  evmTwoTier "Failed to fetch address info via RPC: "
    "Failed to fetch address info: " apiUrl cfg apiKey apiResult rpcResult

/-- `getEVMTransactionInfo`'s control/error flow (messages from lines
422 and 605 of `api.ts`). -/
def getEVMTransactionInfoFlow (apiUrl : Option String)
    (cfg : Option ApiEndpointCfg) (apiKey : String)
    (apiResult rpcResult : Except String String) : Except String String :=
  evmTwoTier "Failed to fetch transaction: "
    "Failed to fetch transaction: " apiUrl cfg apiKey apiResult rpcResult

/-- `getEVMBlockInfo`'s control/error flow (messages from lines 989 and
1048 of `api.ts`). -/
def getEVMBlockInfoFlow (apiUrl : Option String)
    (cfg : Option ApiEndpointCfg) (apiKey : String)
    (apiResult rpcResult : Except String String) : Except String String :=
  evmTwoTier "Failed to fetch block: "
    "Failed to fetch block: " apiUrl cfg apiKey apiResult rpcResult

/-- A key is blank when it consists only of whitespace (the spec's
"empty/blank"); the empty string is blank. -/
def isBlankKey (s : String) : Bool :=
  s.data.all isJsWs

/-! ## Status normalization (`getEVMTransactionInfo`, lines 416/523/599) -/

/-- The normalized three-value transaction status. -/
inductive TxStatus where
  | success
  | failed
  | pending
  deriving Repr, DecidableEq

/-- An EVM transaction receipt, reduced to the field the normalizer
reads: `parseInt(receipt.status, 16)`. -/
structure EvmReceipt where
  status : ℕ
  deriving Repr, DecidableEq

/-- `receipt ? (parseInt(receipt.status, 16) === 1 ? 'success' :
'failed') : 'pending'`. -/
def evmTxStatus (receipt : Option EvmReceipt) : TxStatus :=
  match receipt with
  | none => TxStatus.pending
  | some r => if r.status = 1 then TxStatus.success else TxStatus.failed

/-! ## Unit conversion at the adapter boundary -/

/-- Value of a decimal digit character. -/
def digitVal (c : Char) : ℕ := c.toNat - 48

/-- Parse an all-decimal-digit string to a natural number (the exact
value `parseFloat` produces on such input, as long as it is within the
exactly-representable range, which `10^18` is). -/
def parseDecNat (l : List Char) : Option ℕ :=
  if l.isEmpty || !l.all isDigitCh then none
  else some (l.foldl (fun acc c => 10 * acc + digitVal c) 0)

/-- `parseFloat(balanceRes.data.result || '0') / 1e18` — the EVM
adapter's wei → native-unit conversion (`api.ts` line 253). -/
def evmApiBalance (raw : String) : Option ℚ :=
  (parseDecNat raw.data).map (fun (n : ℕ) => (n : ℚ) / 10 ^ 18)

/-- `response.data.result.value / 1e9` — the Solana adapter's
lamports → SOL conversion (`api.ts` line 317). -/
def solanaLamportsToSol (lamports : ℕ) : ℚ :=
  (lamports : ℚ) / 10 ^ 9

/-! ## Large transactions (`getLargeTransactions`, lines 1478-1689):
the Bitcoin mempool branch (1482-1504), the keyed-API branch
(1505-1564), the Solana RPC branch (1575-1633) and the EVM RPC branch
(1634-1684) -/

/-- A raw EVM transaction of a fetched block, reduced to the fields the
large-transaction path reads (`tx.value` already hex-parsed to wei). -/
structure RawEvmTxn where
  hash : String
  sender : String
  recipient : String
  valueWei : ℕ
  deriving Repr, DecidableEq

/-- A normalized large-transaction entry. -/
structure LargeTxn where
  hash : String
  sender : String
  recipient : String
  value : ℚ
  deriving Repr, DecidableEq

/-- `parseInt(tx.value, 16) / 1e18`. -/
def rawTxnValue (t : RawEvmTxn) : ℚ := (t.valueWei : ℚ) / 10 ^ 18

/-- The collection loop of the keyed-API and EVM RPC branches: for each
checked block, push every transaction whose converted value meets the
threshold (`value >= minValue`). -/
def collectLargeTxns (blocks : List (List RawEvmTxn)) (minValue : ℚ) :
    List LargeTxn :=
  blocks.flatMap (fun blk =>
    blk.filterMap (fun tx =>
      if minValue ≤ rawTxnValue tx then
        some ⟨tx.hash, tx.sender, tx.recipient, rawTxnValue tx⟩
      else none))

/-- The keyed-API branch (lines 1505-1564) and the EVM RPC branch
(lines 1634-1684) of `getLargeTransactions`, which share this post-fetch
computation (they differ only in how many blocks are fetched and over
which transport): collect the above-threshold transactions of the
checked blocks, `sort((a, b) => b.value - a.value)`, `slice(0, limit)`. -/
def getEvmLargeTransactionsModel (blocks : List (List RawEvmTxn))
    (minValue : ℚ) (limit : ℕ) : List LargeTxn :=
  ((sortByKeyDesc (fun t => t.value) (collectLargeTxns blocks minValue)).take
    limit)

/-- A raw mempool transaction of the Bitcoin branch, reduced to the
fields it reads (`txid`, the first input / output addresses, and the
output values in satoshi). -/
structure RawBtcTxn where
  txid : String
  sender : String
  recipient : String
  voutSats : List ℕ
  deriving Repr, DecidableEq

/-- `tx.vout?.reduce((sum, v) => sum + (v.value || 0), 0) / 1e8 || 0`:
the sum of the output values divided by `1e8` (a missing `vout` behaves
like an empty output list — both yield 0). -/
def btcTxnValue (t : RawBtcTxn) : ℚ := (t.voutSats.sum : ℚ) / 10 ^ 8

/-- The Bitcoin branch of `getLargeTransactions` (lines 1482-1504)
after the mempool sample has been fetched:
`.filter(value >= minValue).slice(0, limit).map(normalize)` —
this branch never sorts, so the qualifying transactions keep their
upstream mempool order. -/
def getBitcoinLargeTransactionsModel (mempool : List RawBtcTxn)
    (minValue : ℚ) (limit : ℕ) : List LargeTxn :=
  ((mempool.filter (fun tx => decide (minValue ≤ btcTxnValue tx))).take
    limit).map
    (fun tx => ⟨tx.txid, tx.sender, tx.recipient, btcTxnValue tx⟩)

/-- A raw Solana transaction of a fetched slot, reduced to the fields
the Solana branch reads (signature, the first two account keys, and the
first pre/post balances in lamports). -/
structure RawSolanaTxn where
  signature : String
  sender : String
  recipient : String
  preBalance : ℕ
  postBalance : ℕ
  deriving Repr, DecidableEq

/-- `Math.abs(meta.preBalances[0] - meta.postBalances[0]) / 1e9`. -/
def solanaTxnValue (t : RawSolanaTxn) : ℚ :=
  ((((t.preBalance : ℤ) - (t.postBalance : ℤ)).natAbs : ℚ)) / 10 ^ 9

/-- The collection loop of the Solana branch: for each checked slot,
push every transaction whose balance-change value meets the threshold
(`value >= minValue`). -/
def collectSolanaLargeTxns (blocks : List (List RawSolanaTxn))
    (minValue : ℚ) : List LargeTxn :=
  blocks.flatMap (fun blk =>
    blk.filterMap (fun tx =>
      if minValue ≤ solanaTxnValue tx then
        some ⟨tx.signature, tx.sender, tx.recipient, solanaTxnValue tx⟩
      else none))

/-- The Solana RPC branch of `getLargeTransactions` (lines 1575-1633)
after the slots have been fetched: collect, `sort((a, b) => b.value -
a.value)`, `slice(0, limit)`. -/
def getSolanaLargeTransactionsModel (blocks : List (List RawSolanaTxn))
    (minValue : ℚ) (limit : ℕ) : List LargeTxn :=
  ((sortByKeyDesc (fun t => t.value)
    (collectSolanaLargeTxns blocks minValue)).take limit)

/-! ## Analytics aggregator (`getAnalyticsData`, lines 1694-1798) -/

/-- One sampled normalized transaction, with the optional fields the
aggregator reads (`status` is absent on the samples
`getLatestTransactions` produces). -/
structure SampleTx where
  sender : String
  recipient : String
  value : ℚ
  gasPrice : Option ℚ
  timestamp : Option ℚ
  status : Option TxStatus
  deriving Repr, DecidableEq

/-- The analytics snapshot fields the claims are about.
`blockProductionRate` is `Option ℚ`: `none` models the non-finite
result of a JS division by zero. -/
structure AnalyticsSnapshot where
  totalTransactions : ℕ
  activeAddresses : ℕ
  totalVolume : ℚ
  averageGasPrice : ℚ
  blockProductionRate : Option ℚ
  networkHealth : ℚ
  largeTransactions : ℕ
  deriving Repr, DecidableEq

/-- JS division on finite operands: a zero denominator yields
`NaN`/`±Infinity`, modelled as `none`. -/
def jsDiv (a b : ℚ) : Option ℚ :=
  if b = 0 then none else some (a / b)

/-- The all-zero snapshot returned for an empty sample. -/
def analyticsZero : AnalyticsSnapshot :=
  ⟨0, 0, 0, 0, some 0, 0, 0⟩

/-- `getAnalyticsData` after the sample has been fetched.  `sqrtFn`
abstracts the floating-point `Math.sqrt` used inside the gas-price
standard deviation (its exact value is irrelevant to every claim
below).  Field by field:
* `activeAddresses`: size of the set of truthy `from`/`to` fields;
* `totalVolume`: sum of values;
* `averageGasPrice`: mean of the positive present gas prices, else 0;
* `largeTransactions`: count of truthy values meeting the per-chain
  threshold (1 for bitcoin, 100 for solana, 10 otherwise);
* `blockProductionRate`: `timestamps.length / (timeDiff / 60)` on the
  descending-sorted truthy timestamps when there are at least two —
  an unguarded division (`jsDiv`) — else 0;
* `networkHealth`: `(successRate*0.7 + gasPriceStability*0.3) * 100`. -/
def getAnalyticsDataModel (sqrtFn : ℚ → ℚ) (chainId : String)
    (txs : List SampleTx) : AnalyticsSnapshot :=
  if txs.isEmpty then analyticsZero
  else
    let addrList := txs.flatMap (fun tx =>
      (if tx.sender.isEmpty then [] else [tx.sender]) ++
      (if tx.recipient.isEmpty then [] else [tx.recipient]))
    let activeAddresses := addrList.dedup.length
    let totalVolume := (txs.map (fun tx => tx.value)).sum
    let gasPrices := (txs.filterMap (fun tx => tx.gasPrice)).filter
      (fun p => decide (0 < p))
    let averageGasPrice :=
      if 0 < gasPrices.length then gasPrices.sum / gasPrices.length else 0
    let threshold : ℚ :=
      if chainId = "bitcoin" then 1 else if chainId = "solana" then 100 else 10
    let largeTransactions := (txs.filter (fun tx =>
      decide (tx.value ≠ 0) && decide (threshold ≤ tx.value))).length
    let timestamps := sortByKeyDesc id
      ((txs.filterMap (fun tx => tx.timestamp)).filter (fun ts => decide (ts ≠ 0)))
    let blockProductionRate :=
      if 1 < timestamps.length then
        jsDiv (timestamps.length : ℚ)
          ((timestamps.headD 0 - timestamps.getLastD 0) / 60)
      else some 0
    let successRate := ((txs.filter (fun tx =>
      decide (tx.status ≠ some TxStatus.failed))).length : ℚ) / (txs.length : ℚ)
    let gasPriceStdDev :=
      if 1 < gasPrices.length then
        sqrtFn (((gasPrices.map (fun p => (p - averageGasPrice) ^ 2)).sum) /
          gasPrices.length)
      else 0
    let gasPriceStability :=
      if 0 < averageGasPrice then max 0 (1 - gasPriceStdDev / averageGasPrice)
      else 0
    let networkHealth := (successRate * (7/10) + gasPriceStability * (3/10)) * 100
    ⟨txs.length, activeAddresses, totalVolume, averageGasPrice,
     blockProductionRate, networkHealth, largeTransactions⟩

/-- The sample exhibiting the unguarded division: two transactions
carrying the same block timestamp — exactly what the single-block
`getLatestTransactions` sample produces. -/
def equalTimestampSample : List SampleTx :=
  [⟨"0xa1", "0xb1", 1, some 20, some 1700000000, none⟩,
   ⟨"0xa2", "0xb2", 2, some 20, some 1700000000, none⟩]

/-- The literal detector input of the claim: `"0x"` followed by forty
`a` characters. -/
def q40a : List Char := '0' :: 'x' :: List.replicate 40 'a'

/-- A concrete valid-bech32-shape detector input:
`"bc1"` followed by thirty-nine `q` characters. -/
def qBech32 : List Char := 'b' :: 'c' :: '1' :: List.replicate 39 'q'

/-- Concrete fetched blocks for exercising
`getEvmLargeTransactionsModel`: transaction values 20, 5 and 15 native
units. -/
def demoBlocks : List (List RawEvmTxn) :=
  [[⟨"0xt1", "0xa", "0xb", 20000000000000000000⟩,
    ⟨"0xt2", "0xc", "0xd", 5000000000000000000⟩],
   [⟨"0xt3", "0xe", "0xf", 15000000000000000000⟩]]

/-- The entry `getEvmLargeTransactionsModel demoBlocks 10 1` returns. -/
def demoLargeTxn : LargeTxn :=
  ⟨"0xt1", "0xa", "0xb", rawTxnValue ⟨"0xt1", "0xa", "0xb", 20000000000000000000⟩⟩

/-- A mempool transaction worth 2 BTC. -/
def demoBtc1 : RawBtcTxn := ⟨"t1", "a1", "b1", [200000000]⟩

/-- A mempool transaction worth 5 BTC. -/
def demoBtc2 : RawBtcTxn := ⟨"t2", "a2", "b2", [500000000]⟩

/-- A concrete mempool sample: the 2 BTC transaction arrives before the
5 BTC one. -/
def demoMempool : List RawBtcTxn := [demoBtc1, demoBtc2]

/-! # Helper lemmas -/

theorem dropWhile_eq_self_of_all_false {p : Char → Bool} {l : List Char}
    (h : ∀ c ∈ l, p c = false) : l.dropWhile p = l := by
  cases l with
  | nil => rfl
  | cons a as => rw [List.dropWhile_cons, h a (by simp)]; simp

theorem jsTrim_eq_self {l : List Char} (h : ∀ c ∈ l, isJsWs c = false) :
    jsTrim l = l := by
  unfold jsTrim
  rw [dropWhile_eq_self_of_all_false h,
    dropWhile_eq_self_of_all_false (fun c hc => h c (List.mem_reverse.mp hc)),
    List.reverse_reverse]

theorem isJsWs_eq_false_of_lowerAlnum {c : Char}
    (h : isLowerAlnumCh c = true) : isJsWs c = false := by
  have hr : (48 ≤ c.toNat ∧ c.toNat ≤ 57) ∨ (97 ≤ c.toNat ∧ c.toNat ≤ 122) := by
    simpa [isLowerAlnumCh, isDigitCh, chBetween] using h
  apply decide_eq_false
  intro hmem
  simp only [jsWsCodes, List.mem_cons, List.not_mem_nil, or_false] at hmem
  omega

theorem isNearCh_of_lowerAlnum {c : Char} (h : isLowerAlnumCh c = true) :
    isNearCh c = true := by
  simp [isNearCh, h]

theorem mem_insertByKeyDesc {key : α → ℚ} (m : α) (l : List α) (a : α) :
    a ∈ insertByKeyDesc key m l ↔ a = m ∨ a ∈ l := by
  induction l with
  | nil => simp [insertByKeyDesc]
  | cons x xs ih =>
    unfold insertByKeyDesc
    by_cases h : key x ≤ key m
    · simp [h]
    · simp [h, ih]
      tauto

theorem pairwise_insertByKeyDesc {key : α → ℚ} {m : α} {l : List α}
    (hl : l.Pairwise (fun a b => key b ≤ key a)) :
    (insertByKeyDesc key m l).Pairwise (fun a b => key b ≤ key a) := by
  induction l with
  | nil => simp [insertByKeyDesc]
  | cons x xs ih =>
    rcases List.pairwise_cons.mp hl with ⟨hx, hxs⟩
    unfold insertByKeyDesc
    by_cases h : key x ≤ key m
    · rw [if_pos h]
      refine List.pairwise_cons.mpr ⟨?_, hl⟩
      intro b hb
      rcases List.mem_cons.mp hb with rfl | hb
      · exact h
      · exact le_trans (hx b hb) h
    · rw [if_neg h]
      refine List.pairwise_cons.mpr ⟨?_, ih hxs⟩
      intro b hb
      rcases (mem_insertByKeyDesc m xs b).mp hb with rfl | hb
      · exact le_of_not_le h
      · exact hx b hb

theorem pairwise_sortByKeyDesc {key : α → ℚ} (l : List α) :
    (sortByKeyDesc key l).Pairwise (fun a b => key b ≤ key a) := by
  induction l with
  | nil => simp [sortByKeyDesc]
  | cons x xs ih => exact pairwise_insertByKeyDesc ih

theorem mem_sortByKeyDesc {key : α → ℚ} (l : List α) (a : α) :
    a ∈ sortByKeyDesc key l ↔ a ∈ l := by
  induction l with
  | nil => simp [sortByKeyDesc]
  | cons x xs ih =>
    unfold sortByKeyDesc
    rw [mem_insertByKeyDesc]
    simp [ih]

theorem collectLargeTxns_value {blocks : List (List RawEvmTxn)}
    {minValue : ℚ} {t : LargeTxn}
    (h : t ∈ collectLargeTxns blocks minValue) : minValue ≤ t.value := by
  unfold collectLargeTxns at h
  rcases List.mem_flatMap.mp h with ⟨blk, _, hblk⟩
  rcases List.mem_filterMap.mp hblk with ⟨tx, _, htx⟩
  by_cases hv : minValue ≤ rawTxnValue tx
  · rw [if_pos hv] at htx
    cases htx
    exact hv
  · rw [if_neg hv] at htx
    cases htx

/-! # Claim theorems -/

/-- C1 (code evaluated at the failing input): for a sample of two
transactions carrying the same timestamp — the shape every
single-block `getLatestTransactions` sample has — `getAnalyticsData`
computes `blockProductionRate = 2 / ((t - t) / 60)`, a division by
zero, so the field is non-finite (`none`), whatever `Math.sqrt`
returns elsewhere in the snapshot.  This contradicts the claim that
every numeric field of the snapshot is finite. -/
theorem c1_blockProductionRate_nonfinite_on_equal_timestamps
    (sqrtFn : ℚ → ℚ) :
    (getAnalyticsDataModel sqrtFn "ethereum"
      equalTimestampSample).blockProductionRate = none := by
  norm_num [getAnalyticsDataModel, equalTimestampSample, sortByKeyDesc,
    insertByKeyDesc, jsDiv]

/-- C3 (counterexample): when the keyed-API tier fails with
`"api down"` and the RPC fallback then fails with `"rpc down"`, none of
the three EVM read operations raises an error carrying the RPC error —
each interpolates the outer (API) error instead. -/
theorem c3_counterexample :
    ¬ (getEVMAddressInfoFlow (some "https://api.etherscan.io/api")
         (apiCfgOf "ethereum") "DEMOKEY" (Except.error "api down")
         (Except.error "rpc down") =
           Except.error ("Failed to fetch address info: " ++ "rpc down") ∧
       getEVMTransactionInfoFlow (some "https://api.etherscan.io/api")
         (apiCfgOf "ethereum") "DEMOKEY" (Except.error "api down")
         (Except.error "rpc down") =
           Except.error ("Failed to fetch transaction: " ++ "rpc down") ∧
       getEVMBlockInfoFlow (some "https://api.etherscan.io/api")
         (apiCfgOf "ethereum") "DEMOKEY" (Except.error "api down")
         (Except.error "rpc down") =
           Except.error ("Failed to fetch block: " ++ "rpc down")) := by
  intro h
  have h1 : (Except.error "Failed to fetch address info: api down" :
      Except String String) =
      Except.error ("Failed to fetch address info: " ++ "rpc down") := h.1
  exact absurd (Except.error.inj h1) (by decide)

/-- C3 (amended): whenever the keyed-API tier is actually attempted
(the opening guard does not short-circuit to RPC) and both tiers fail,
each of the three operations raises its source-exhausted error carrying
the FIRST underlying error — the keyed-API tier's — not the RPC
tier's. -/
theorem c3_amended_error_carries_api_error (apiUrl : Option String)
    (cfg : Option ApiEndpointCfg) (apiKey : String) (apiErr rpcErr : String)
    (h : usesRpcDirect apiUrl cfg apiKey = false) :
    getEVMAddressInfoFlow apiUrl cfg apiKey (Except.error apiErr)
        (Except.error rpcErr) =
      Except.error ("Failed to fetch address info: " ++ apiErr) ∧
    getEVMTransactionInfoFlow apiUrl cfg apiKey (Except.error apiErr)
        (Except.error rpcErr) =
      Except.error ("Failed to fetch transaction: " ++ apiErr) ∧
    getEVMBlockInfoFlow apiUrl cfg apiKey (Except.error apiErr)
        (Except.error rpcErr) =
      Except.error ("Failed to fetch block: " ++ apiErr) := by
  unfold getEVMAddressInfoFlow getEVMTransactionInfoFlow
    getEVMBlockInfoFlow evmTwoTier
  rw [h]
  simp

/-- C3 witness: the amended statement at a concrete configured chain
and concrete errors. -/
theorem c3_amended_witness :
    getEVMAddressInfoFlow (some "https://api.etherscan.io/api")
        (apiCfgOf "ethereum") "DEMOKEY" (Except.error "api down")
        (Except.error "rpc down") =
      Except.error ("Failed to fetch address info: " ++ "api down") ∧
    getEVMTransactionInfoFlow (some "https://api.etherscan.io/api")
        (apiCfgOf "ethereum") "DEMOKEY" (Except.error "api down")
        (Except.error "rpc down") =
      Except.error ("Failed to fetch transaction: " ++ "api down") ∧
    getEVMBlockInfoFlow (some "https://api.etherscan.io/api")
        (apiCfgOf "ethereum") "DEMOKEY" (Except.error "api down")
        (Except.error "rpc down") =
      Except.error ("Failed to fetch block: " ++ "api down") :=
  c3_amended_error_carries_api_error (some "https://api.etherscan.io/api")
    (apiCfgOf "ethereum") "DEMOKEY" "api down" "rpc down" (by decide)

/-- C6: a transaction without a receipt is normalized to `pending`
(in particular never to `failed`); with a receipt the status is
`success` exactly when the receipt status bit equals 1 and `failed`
otherwise. -/
theorem c6_status_normalization :
    evmTxStatus none = TxStatus.pending ∧
    evmTxStatus none ≠ TxStatus.failed ∧
    ∀ r : EvmReceipt,
      (evmTxStatus (some r) = TxStatus.success ↔ r.status = 1) ∧
      (r.status ≠ 1 → evmTxStatus (some r) = TxStatus.failed) := by
  refine ⟨rfl, by decide, fun r => ⟨?_, ?_⟩⟩
  · unfold evmTxStatus
    by_cases h : r.status = 1 <;> simp [h]
  · intro h
    simp [evmTxStatus, h]

/-- C6 witness: the normalization evaluated at a receipt with status
bit 0. -/
theorem c6_witness :
    evmTxStatus (some ⟨0⟩) = TxStatus.failed :=
  (c6_status_normalization.2.2 ⟨0⟩).2 (by decide)

/-- C8 (counterexample): for the configured Ethereum keyed API and the
blank (whitespace-only) key `" "`, the keyed-API tier is NOT skipped:
the operation's first attempted tier is the keyed API, because the
guard `!apiKey` only recognizes the empty string as absent. -/
theorem c8_counterexample :
    jsTruthyStr (some "https://api.etherscan.io/api") = true ∧
    apiCfgRequiresKey (apiCfgOf "ethereum") = true ∧
    isBlankKey " " = true ∧
    Tier.api ∈ evmReadTiers (some "https://api.etherscan.io/api")
      (apiCfgOf "ethereum") " " false := by
  decide

/-- C8 (amended): when the supplied key is the empty string, the
keyed-API tier is skipped entirely — the operation attempts exactly the
RPC tier, so no call is issued to the keyed API (a whitespace-only key,
however, is treated as present). -/
theorem c8_amended_empty_key_skips_api (apiUrl : Option String)
    (cfg : Option ApiEndpointCfg) (apiOk : Bool) (apiKey : String)
    (h : apiKey = "") :
    evmReadTiers apiUrl cfg apiKey apiOk = [Tier.rpc] ∧
    Tier.api ∉ evmReadTiers apiUrl cfg apiKey apiOk := by
  subst h
  have hg : usesRpcDirect apiUrl cfg "" = true := by
    unfold usesRpcDirect
    simp [String.isEmpty]
  unfold evmReadTiers
  rw [hg]
  simp

/-- C8 witness: the amended statement at the configured Ethereum keyed
API with the empty key. -/
theorem c8_amended_witness :
    evmReadTiers (some "https://api.etherscan.io/api")
      (apiCfgOf "ethereum") "" false = [Tier.rpc] ∧
    Tier.api ∉ evmReadTiers (some "https://api.etherscan.io/api")
      (apiCfgOf "ethereum") "" false :=
  c8_amended_empty_key_skips_api (some "https://api.etherscan.io/api")
    (apiCfgOf "ethereum") false "" rfl

/-- C9: the adapters' unit conversions — a raw EVM balance string of
`10^18` wei normalizes to exactly 1 native unit (divisor `1e18`), and a
raw Solana balance of 5000000000 lamports normalizes to exactly 5 SOL
(divisor `1e9`). -/
theorem c9_unit_conversion :
    evmApiBalance "1000000000000000000" = some 1 ∧
    solanaLamportsToSol 5000000000 = 5 := by
  constructor
  · have hp : parseDecNat "1000000000000000000".data =
        some 1000000000000000000 := by decide
    unfold evmApiBalance
    rw [hp]
    simp only [Option.map_some']
    norm_num
  · unfold solanaLamportsToSol
    norm_num

theorem mem_probeSeq_lt {startIndex len idx : ℕ}
    (h : idx ∈ probeSeq startIndex len) : idx < len := by
  unfold probeSeq at h
  rcases List.mem_map.mp h with ⟨k, hk, rfl⟩
  have hlen : 0 < len := lt_of_le_of_lt (Nat.zero_le k) (List.mem_range.mp hk)
  exact Nat.mod_lt _ hlen

theorem getD_mem {l : List String} {idx : ℕ} (h : idx < l.length) :
    l.getD idx "" ∈ l := by
  rw [List.getD_eq_getElem l "" h]
  exact List.getElem_mem h

theorem getD_zero_eq_headD (l : List String) : l.getD 0 "" = l.headD "" := by
  cases l <;> rfl

theorem resolveRpcFrom_url_mem (probe : String → Bool)
    (endpoints : List String) (cache : List (String × ℕ)) (chainId : String)
    (startIndex : ℕ) (h : endpoints ≠ []) :
    (resolveRpcFrom probe endpoints cache chainId startIndex).url ∈
      endpoints := by
  unfold resolveRpcFrom
  cases hf : (probeSeq startIndex endpoints.length).find?
      (fun idx => probe (endpoints.getD idx "")) with
  | some idx =>
    exact getD_mem (mem_probeSeq_lt (List.mem_of_find?_eq_some hf))
  | none =>
    exact getD_mem (List.length_pos.mpr h)

theorem resolveRpcFrom_all_fail (probe : String → Bool)
    (endpoints : List String) (cache : List (String × ℕ)) (chainId : String)
    (startIndex : ℕ) (hall : ∀ u ∈ endpoints, probe u = false) :
    (resolveRpcFrom probe endpoints cache chainId startIndex).url =
      endpoints.getD 0 "" := by
  unfold resolveRpcFrom
  cases hf : (probeSeq startIndex endpoints.length).find?
      (fun idx => probe (endpoints.getD idx "")) with
  | some idx =>
    exfalso
    have hp := List.find?_some hf
    have hidx : idx < endpoints.length :=
      mem_probeSeq_lt (List.mem_of_find?_eq_some hf)
    rw [hall _ (getD_mem hidx)] at hp
    exact absurd hp (by simp)
  | none => rfl

/-- C2: for every chain id with a configured non-empty endpoint pool,
`getAvailableRpcUrl` never throws: it returns a URL drawn from that
chain's pool, and when every probe fails it returns the pool's first
URL. -/
theorem c2_resolveEndpoint_total (probe : String → Bool)
    (pools : String → List String) (cache : List (String × ℕ))
    (chainId : String) (h : pools chainId ≠ []) :
    ∃ r : ResolveOk,
      getAvailableRpcUrl probe pools cache chainId = Except.ok r ∧
      r.url ∈ pools chainId ∧
      ((∀ u ∈ pools chainId, probe u = false) →
        r.url = (pools chainId).headD "") := by
  have hne : (pools chainId).isEmpty = false := by
    cases hp : pools chainId with
    | nil => exact absurd hp h
    | cons a as => rfl
  refine ⟨resolveRpcFrom probe (pools chainId) cache chainId
    ((lookupCache cache chainId).getD 0), ?_, ?_, ?_⟩
  · simp [getAvailableRpcUrl, hne]
  · exact resolveRpcFrom_url_mem _ _ _ _ _ h
  · intro hall
    rw [resolveRpcFrom_all_fail _ _ _ _ _ hall, getD_zero_eq_headD]

/-- C2 witness: probing the real Ethereum pool with every probe
failing. -/
theorem c2_witness :
    poolOf freeRpcEndpoints "ethereum" ≠ [] ∧
    ∃ r : ResolveOk,
      getAvailableRpcUrl (fun _ => false) (poolOf freeRpcEndpoints) []
        "ethereum" = Except.ok r ∧
      r.url ∈ poolOf freeRpcEndpoints "ethereum" ∧
      ((∀ u ∈ poolOf freeRpcEndpoints "ethereum", (fun _ => false) u = false) →
        r.url = (poolOf freeRpcEndpoints "ethereum").headD "") :=
  ⟨by decide,
   c2_resolveEndpoint_total (fun _ => false) (poolOf freeRpcEndpoints) []
     "ethereum" (by decide)⟩

theorem resolveRpcFrom_winner_some {probe : String → Bool}
    {endpoints : List String} {cache : List (String × ℕ)} {chainId : String}
    {startIndex i : ℕ}
    (hw : (resolveRpcFrom probe endpoints cache chainId startIndex).winner =
      some i) :
    resolveRpcFrom probe endpoints cache chainId startIndex =
      ⟨endpoints.getD i "", startIndex, some i, setCache cache chainId i⟩ := by
  unfold resolveRpcFrom at hw ⊢
  cases hf : (probeSeq startIndex endpoints.length).find?
      (fun idx => probe (endpoints.getD idx "")) with
  | some idx =>
    rw [hf] at hw
    have hi : idx = i := Option.some.inj hw
    subst hi
    rfl
  | none =>
    rw [hf] at hw
    exact Option.noConfusion hw

theorem getAvailableRpcUrl_of_cached (probe : String → Bool)
    (pools : String → List String) (cache : List (String × ℕ))
    (chainId : String) (i : ℕ) (he : (pools chainId).isEmpty = false)
    (hc : lookupCache cache chainId = some i) :
    getAvailableRpcUrl probe pools cache chainId =
      Except.ok (resolveRpcFrom probe (pools chainId) cache chainId i) := by
  simp [getAvailableRpcUrl, he, hc]

/-- C7: when a call resolves successfully with the endpoint at pool
index `i`, the per-chain cache afterwards maps the chain to `i`, and the
next call for the same chain runs the probing loop started at `i` — by
definition of `resolveRpcFrom` it visits `pool[(i + k) % len]` for
increasing `k`. -/
theorem c7_sticky_success (probe1 probe2 : String → Bool)
    (pools : String → List String) (cache : List (String × ℕ))
    (chainId : String) (r1 : ResolveOk) (i : ℕ)
    (h1 : getAvailableRpcUrl probe1 pools cache chainId = Except.ok r1)
    (hw : r1.winner = some i) :
    lookupCache r1.cache chainId = some i ∧
    getAvailableRpcUrl probe2 pools r1.cache chainId =
      Except.ok (resolveRpcFrom probe2 (pools chainId) r1.cache chainId i) := by
  simp only [getAvailableRpcUrl] at h1
  cases he : (pools chainId).isEmpty with
  | true =>
    rw [he] at h1
    simp at h1
  | false =>
    rw [he] at h1
    simp only [Bool.false_eq_true, if_false, Except.ok.injEq] at h1
    subst h1
    have hr := resolveRpcFrom_winner_some hw
    have hl : lookupCache (resolveRpcFrom probe1 (pools chainId) cache chainId
        ((lookupCache cache chainId).getD 0)).cache chainId = some i := by
      rw [hr]
      simp [lookupCache, setCache]
    exact ⟨hl, getAvailableRpcUrl_of_cached probe2 pools _ chainId i he hl⟩

/-- C7 witness: on the real Ethereum pool, a first call whose probe
only accepts the pool's second endpoint (index 1) caches index 1, and
the follow-up call starts its probing at index 1. -/
theorem c7_witness :
    lookupCache (ResolveOk.cache ⟨"https://rpc.ankr.com/eth", 0, some 1,
      [("ethereum", 1)]⟩) "ethereum" = some 1 ∧
    getAvailableRpcUrl (fun _ => true) (poolOf freeRpcEndpoints)
        (ResolveOk.cache ⟨"https://rpc.ankr.com/eth", 0, some 1,
          [("ethereum", 1)]⟩) "ethereum" =
      Except.ok (resolveRpcFrom (fun _ => true)
        (poolOf freeRpcEndpoints "ethereum")
        (ResolveOk.cache ⟨"https://rpc.ankr.com/eth", 0, some 1,
          [("ethereum", 1)]⟩) "ethereum" 1) :=
  c7_sticky_success (fun u => decide (u = "https://rpc.ankr.com/eth"))
    (fun _ => true) (poolOf freeRpcEndpoints) [] "ethereum"
    ⟨"https://rpc.ankr.com/eth", 0, some 1, [("ethereum", 1)]⟩ 1
    rfl rfl

theorem collectSolanaLargeTxns_value {blocks : List (List RawSolanaTxn)}
    {minValue : ℚ} {t : LargeTxn}
    (h : t ∈ collectSolanaLargeTxns blocks minValue) : minValue ≤ t.value := by
  unfold collectSolanaLargeTxns at h
  rcases List.mem_flatMap.mp h with ⟨blk, _, hblk⟩
  rcases List.mem_filterMap.mp hblk with ⟨tx, _, htx⟩
  by_cases hv : minValue ≤ solanaTxnValue tx
  · rw [if_pos hv] at htx
    cases htx
    exact hv
  · rw [if_neg hv] at htx
    cases htx

theorem btcLargeTxns_value {mempool : List RawBtcTxn} {minValue : ℚ}
    {limit : ℕ} {t : LargeTxn}
    (h : t ∈ getBitcoinLargeTransactionsModel mempool minValue limit) :
    minValue ≤ t.value := by
  unfold getBitcoinLargeTransactionsModel at h
  rcases List.mem_map.mp h with ⟨tx, htx, rfl⟩
  exact of_decide_eq_true
    (List.mem_filter.mp (List.mem_of_mem_take htx)).2

theorem btcModel_demo :
    getBitcoinLargeTransactionsModel demoMempool 1 20 =
      [⟨"t1", "a1", "b1", btcTxnValue demoBtc1⟩,
       ⟨"t2", "a2", "b2", btcTxnValue demoBtc2⟩] := by
  norm_num [getBitcoinLargeTransactionsModel, demoMempool, demoBtc1, demoBtc2,
    btcTxnValue]

/-- C10 (counterexample): the Bitcoin branch of `getLargeTransactions`
never sorts — on a mempool sample holding a 2 BTC transaction before a
5 BTC one (with `minValue = 1`, `limit = 20`) the returned list keeps
the upstream mempool order [2 BTC, 5 BTC], which is not non-increasing,
so the claim's for-every-chain sortedness fails on the bitcoin chain. -/
theorem c10_counterexample :
    ¬ ((∀ t ∈ getBitcoinLargeTransactionsModel demoMempool 1 20,
          (1 : ℚ) ≤ t.value) ∧
       (getBitcoinLargeTransactionsModel demoMempool 1 20).Pairwise
         (fun a b => b.value ≤ a.value) ∧
       (getBitcoinLargeTransactionsModel demoMempool 1 20).length ≤ 20) := by
  intro h
  have h2 := h.2.1
  rw [btcModel_demo] at h2
  have h5 := (List.pairwise_cons.mp h2).1
    ⟨"t2", "a2", "b2", btcTxnValue demoBtc2⟩ (by simp)
  norm_num [btcTxnValue, demoBtc1, demoBtc2] at h5

/-- C10 (amended): on the keyed-API / EVM-RPC branches and on the
Solana branch, every returned transaction has value at least
`minValue`, the list is sorted in non-increasing order of value, and it
has at most `limit` entries; on the Bitcoin mempool branch the value
bound and the length bound hold as well, but the list is not sorted —
that branch returns the qualifying transactions in upstream mempool
order. -/
theorem c10_amended_contract (blocks : List (List RawEvmTxn))
    (sblocks : List (List RawSolanaTxn)) (mempool : List RawBtcTxn)
    (minValue : ℚ) (limit : ℕ) :
    (∀ t ∈ getEvmLargeTransactionsModel blocks minValue limit,
      minValue ≤ t.value) ∧
    (getEvmLargeTransactionsModel blocks minValue limit).Pairwise
      (fun a b => b.value ≤ a.value) ∧
    (getEvmLargeTransactionsModel blocks minValue limit).length ≤ limit ∧
    (∀ t ∈ getSolanaLargeTransactionsModel sblocks minValue limit,
      minValue ≤ t.value) ∧
    (getSolanaLargeTransactionsModel sblocks minValue limit).Pairwise
      (fun a b => b.value ≤ a.value) ∧
    (getSolanaLargeTransactionsModel sblocks minValue limit).length ≤ limit ∧
    (∀ t ∈ getBitcoinLargeTransactionsModel mempool minValue limit,
      minValue ≤ t.value) ∧
    (getBitcoinLargeTransactionsModel mempool minValue limit).length ≤
      limit := by
  unfold getEvmLargeTransactionsModel getSolanaLargeTransactionsModel
  refine ⟨?_, ?_, ?_, ?_, ?_, ?_, ?_, ?_⟩
  · intro t ht
    exact collectLargeTxns_value
      ((mem_sortByKeyDesc _ t).mp (List.mem_of_mem_take ht))
  · exact (@pairwise_sortByKeyDesc LargeTxn (fun t => t.value)
      (collectLargeTxns blocks minValue)).sublist (List.take_sublist _ _)
  · exact List.length_take_le _ _
  · intro t ht
    exact collectSolanaLargeTxns_value
      ((mem_sortByKeyDesc _ t).mp (List.mem_of_mem_take ht))
  · exact (@pairwise_sortByKeyDesc LargeTxn (fun t => t.value)
      (collectSolanaLargeTxns sblocks minValue)).sublist
      (List.take_sublist _ _)
  · exact List.length_take_le _ _
  · intro t ht
    exact btcLargeTxns_value ht
  · unfold getBitcoinLargeTransactionsModel
    rw [List.length_map]
    exact List.length_take_le _ _

/-- C10 witness: the amended contract evaluated on concrete EVM blocks
(values 20, 5, 15; `minValue = 10`, `limit = 1`) and on the concrete
Bitcoin mempool sample (values 2 and 5 BTC; `minValue = 1`,
`limit = 20`). -/
theorem c10_amended_witness :
    (10 : ℚ) ≤ demoLargeTxn.value ∧
    (getEvmLargeTransactionsModel demoBlocks 10 1).length ≤ 1 ∧
    (1 : ℚ) ≤ (⟨"t2", "a2", "b2", btcTxnValue demoBtc2⟩ : LargeTxn).value ∧
    (getBitcoinLargeTransactionsModel demoMempool 1 20).length ≤ 20 := by
  have hmem : demoLargeTxn ∈ getEvmLargeTransactionsModel demoBlocks 10 1 := by
    norm_num [getEvmLargeTransactionsModel, collectLargeTxns, demoBlocks,
      rawTxnValue, sortByKeyDesc, insertByKeyDesc, demoLargeTxn,
      List.filterMap_cons, List.filterMap_nil]
  have hmem2 : (⟨"t2", "a2", "b2", btcTxnValue demoBtc2⟩ : LargeTxn) ∈
      getBitcoinLargeTransactionsModel demoMempool 1 20 := by
    rw [btcModel_demo]
    simp
  exact ⟨(c10_amended_contract demoBlocks [] [] 10 1).1 demoLargeTxn hmem,
    (c10_amended_contract demoBlocks [] [] 10 1).2.2.1,
    (c10_amended_contract [] [] demoMempool 1 20).2.2.2.2.2.2.1 _ hmem2,
    (c10_amended_contract [] [] demoMempool 1 20).2.2.2.2.2.2.2⟩

theorem detectChainsL_q40a :
    detectChainsL q40a =
      [⟨"ethereum", 70/100, "EVM地址格式（可能属于多个链）"⟩,
       ⟨"polygon", 70/100, "EVM地址格式（可能属于多个链）"⟩,
       ⟨"bsc", 70/100, "EVM地址格式（可能属于多个链）"⟩,
       ⟨"avalanche", 70/100, "EVM地址格式（可能属于多个链）"⟩,
       ⟨"arbitrum", 70/100, "EVM地址格式（可能属于多个链）"⟩,
       ⟨"optimism", 70/100, "EVM地址格式（可能属于多个链）"⟩,
       ⟨"near", 70/100, "可能的NEAR地址"⟩,
       ⟨"aptos", 60/100, "可能的Aptos地址"⟩,
       ⟨"sui", 60/100, "可能的Sui地址"⟩] := by
  have ht : jsTrim q40a = q40a := by decide
  have h1 : btcLegacyTest q40a = false := by decide
  have h2 : bech32Test q40a = false := by decide
  have h3 : hex64Test q40a = false := by decide
  have h4 : startsWith0x q40a = true := by decide
  have h5 : evmAddrTest q40a = true := by decide
  have h6 : evmTxTest q40a = false := by decide
  have h7 : solanaBase58Test q40a = false := by decide
  have h8 : startsWith13 q40a = false := by decide
  have h9 : startsWithBc1 q40a = false := by decide
  have h10 : tronTest q40a = false := by decide
  have h11 : cosmosTest q40a = false := by decide
  have h12 : endsWithDotNear q40a = false := by decide
  have h13 : nearAccountTest q40a = true := by decide
  have h14 : aptosSuiTest q40a = true := by decide
  have h15 : digitsTest q40a = false := by decide
  have h16 : decide (q40a.length < 64) = true := by decide
  have h17 : decide (q40a.length < 66) = true := by decide
  have hc1 : chainConfigured "bitcoin" = true := by decide
  have hc2 : chainConfigured "solana" = true := by decide
  have hc3 : chainConfigured "tron" = true := by decide
  have hc4 : chainConfigured "cosmos" = true := by decide
  have hc5 : chainConfigured "near" = true := by decide
  have hc6 : chainConfigured "aptos" = true := by decide
  have hc7 : chainConfigured "sui" = true := by decide
  have hevm : evmFilteredChains =
      ["ethereum", "polygon", "bsc", "avalanche", "arbitrum", "optimism"] := by
    decide
  have hle1 : ((60 : ℚ)/100) ≤ 70/100 := by norm_num
  unfold detectChainsL
  simp only [ht, h1, h2, h3, h4, h5, h6, h7, h8, h9, h10, h11, h12, h13, h14,
    h15, h16, h17, hc1, hc2, hc3, hc4, hc5, hc6, hc7, hevm]
  norm_num [sortByKeyDesc, insertByKeyDesc, hle1]

/-- C4 (counterexample): on the literal input `"0x" + "a"*40` the
detector's output is NOT "EVM-family matches only": it contains a match
for NEAR — a chain of the account-model family — (at confidence 0.70,
via the permissive `/^[a-z0-9_-]+$/` NEAR test), refuting the
zero-matches-for-those-families part of the claim (and, with it, that
every returned match has confidence 0.70, since Aptos and Sui matches at
0.60 are present as well). -/
theorem c4_counterexample :
    ¬ ((∀ m ∈ detectChainsL q40a,
          m.chainId ∉ utxoFamilyIds ++ accountModelFamilyIds ++ tronFamilyIds) ∧
       (∀ id ∈ evmFilteredChains,
          ((detectChainsL q40a).filter (fun m => m.chainId == id)).length = 1) ∧
       (∀ m ∈ detectChainsL q40a, m.confidence = 70/100)) := by
  intro h
  exact h.1 ⟨"near", 70/100, "可能的NEAR地址"⟩
    (by rw [detectChainsL_q40a]; simp) (by decide)

/-- C4 (amended): on the literal input `"0x" + "a"*40` the detector
returns one match per configured EVM-family chain with confidence
exactly 0.70 and zero matches for the Bitcoin, Solana, Tron and Cosmos
chains, but additionally one NEAR match with confidence 0.70 and one
Aptos and one Sui match with confidence 0.60 each (the full ranked
output, in order). -/
theorem c4_amended :
    detectChainsL q40a =
      [⟨"ethereum", 70/100, "EVM地址格式（可能属于多个链）"⟩,
       ⟨"polygon", 70/100, "EVM地址格式（可能属于多个链）"⟩,
       ⟨"bsc", 70/100, "EVM地址格式（可能属于多个链）"⟩,
       ⟨"avalanche", 70/100, "EVM地址格式（可能属于多个链）"⟩,
       ⟨"arbitrum", 70/100, "EVM地址格式（可能属于多个链）"⟩,
       ⟨"optimism", 70/100, "EVM地址格式（可能属于多个链）"⟩,
       ⟨"near", 70/100, "可能的NEAR地址"⟩,
       ⟨"aptos", 60/100, "可能的Aptos地址"⟩,
       ⟨"sui", 60/100, "可能的Sui地址"⟩] :=
  detectChainsL_q40a

theorem detectChainsL_bech32_shape (body : List Char) (h39 : 39 ≤ body.length)
    (h59 : body.length ≤ 59) (hall : ∀ c ∈ body, isLowerAlnumCh c = true) :
    detectChainsL ('b' :: 'c' :: '1' :: body) =
      [⟨"bitcoin", 95/100, "Bitcoin地址格式"⟩,
       ⟨"near", 70/100, "可能的NEAR地址"⟩] := by
  have hnw : ∀ c ∈ ('b' :: 'c' :: '1' :: body), isJsWs c = false := by
    intro c hc
    rcases List.mem_cons.mp hc with rfl | hc
    · decide
    rcases List.mem_cons.mp hc with rfl | hc
    · decide
    rcases List.mem_cons.mp hc with rfl | hc
    · decide
    exact isJsWs_eq_false_of_lowerAlnum (hall c hc)
  have ht : jsTrim ('b' :: 'c' :: '1' :: body) = 'b' :: 'c' :: '1' :: body :=
    jsTrim_eq_self hnw
  have h1 : btcLegacyTest ('b' :: 'c' :: '1' :: body) = false := rfl
  have h2 : bech32Test ('b' :: 'c' :: '1' :: body) = true := by
    show (decide (39 ≤ body.length) && decide (body.length ≤ 59) &&
      body.all isLowerAlnumCh) = true
    rw [decide_eq_true h39, decide_eq_true h59, List.all_eq_true.mpr hall]
    rfl
  have h3 : hex64Test ('b' :: 'c' :: '1' :: body) = false := by
    unfold hex64Test
    have hd : decide (('b' :: 'c' :: '1' :: body).length = 64) = false := by
      apply decide_eq_false
      simp
      omega
    rw [hd]
    rfl
  have h4 : startsWith0x ('b' :: 'c' :: '1' :: body) = false := rfl
  have h5 : evmAddrTest ('b' :: 'c' :: '1' :: body) = false := rfl
  have h6 : evmTxTest ('b' :: 'c' :: '1' :: body) = false := rfl
  have h9 : startsWithBc1 ('b' :: 'c' :: '1' :: body) = true := rfl
  have h10 : tronTest ('b' :: 'c' :: '1' :: body) = false := rfl
  have h11 : cosmosTest ('b' :: 'c' :: '1' :: body) = false := rfl
  have h13 : nearAccountTest ('b' :: 'c' :: '1' :: body) = true := by
    have hn : ∀ c ∈ ('b' :: 'c' :: '1' :: body), isNearCh c = true := by
      intro c hc
      rcases List.mem_cons.mp hc with rfl | hc
      · decide
      rcases List.mem_cons.mp hc with rfl | hc
      · decide
      rcases List.mem_cons.mp hc with rfl | hc
      · decide
      exact isNearCh_of_lowerAlnum (hall c hc)
    simp [nearAccountTest, List.all_eq_true.mpr hn]
  have h14 : aptosSuiTest ('b' :: 'c' :: '1' :: body) = false := rfl
  have h15 : digitsTest ('b' :: 'c' :: '1' :: body) = false := by
    unfold digitsTest
    rw [show ('b' :: 'c' :: '1' :: body).all isDigitCh = false from rfl]
    rfl
  have h16 : decide (('b' :: 'c' :: '1' :: body).length < 64) = true := by
    apply decide_eq_true
    simp
    omega
  have hc1 : chainConfigured "bitcoin" = true := by decide
  have hc5 : chainConfigured "near" = true := by decide
  have hle : ((70 : ℚ)/100) ≤ 95/100 := by norm_num
  unfold detectChainsL
  simp only [ht, h1, h2, h3, h4, h5, h6, h9, h10, h11, h13, h14, h15, h16,
    hc1, hc5]
  norm_num [sortByKeyDesc, insertByKeyDesc, hle]

/-- C5 (counterexample): the concrete valid-bech32-shape input
`"bc1" + "q"*39` does NOT yield exactly one match: besides the Bitcoin
match at 0.95 the detector emits a NEAR match at 0.70 (the permissive
`/^[a-z0-9_-]+$/` NEAR test also accepts every bech32-shaped string of
length below 64). -/
theorem c5_counterexample :
    bech32Test qBech32 = true ∧
    ¬ ((detectChainsL qBech32).length = 1 ∧
       ∀ m ∈ detectChainsL qBech32,
         m.chainId = "bitcoin" ∧ m.confidence = 95/100) := by
  have hq : detectChainsL qBech32 =
      [⟨"bitcoin", 95/100, "Bitcoin地址格式"⟩,
       ⟨"near", 70/100, "可能的NEAR地址"⟩] :=
    detectChainsL_bech32_shape (List.replicate 39 'q') (by simp) (by simp)
      (fun c hc => by rw [List.eq_of_mem_replicate hc]; decide)
  refine ⟨by decide, ?_⟩
  intro h
  have h1 := h.1
  rw [hq] at h1
  simp at h1

/-- C5 (amended): for every input of valid bech32 Bitcoin address shape
(`"bc1"` followed by 39 to 59 lowercase alphanumeric characters) the
detector returns exactly two matches: Bitcoin with confidence 0.95
ranked first, and NEAR with confidence 0.70 second. -/
theorem c5_amended (body : List Char) (h39 : 39 ≤ body.length)
    (h59 : body.length ≤ 59) (hall : ∀ c ∈ body, isLowerAlnumCh c = true) :
    detectChainsL ('b' :: 'c' :: '1' :: body) =
      [⟨"bitcoin", 95/100, "Bitcoin地址格式"⟩,
       ⟨"near", 70/100, "可能的NEAR地址"⟩] :=
  detectChainsL_bech32_shape body h39 h59 hall

/-- C5 witness: the amended statement evaluated at `"bc1" + "q"*39`. -/
theorem c5_amended_witness :
    detectChainsL ('b' :: 'c' :: '1' :: List.replicate 39 'q') =
      [⟨"bitcoin", 95/100, "Bitcoin地址格式"⟩,
       ⟨"near", 70/100, "可能的NEAR地址"⟩] :=
  c5_amended (List.replicate 39 'q') (by simp) (by simp)
    (fun c hc => by rw [List.eq_of_mem_replicate hc]; decide)

end MB
